import Mathlib

/-!
Shallow embedding of `custom_components/awtrix-screen/sensor.py`
(RDG88/awtrix-screen-homeassistant).

The module polls an AWTRIX device over HTTP, exposes the returned frame as a
JSON-encoded "screen" attribute of a Home Assistant entity, and keeps an
online/offline flag debounced by a consecutive-error counter.

The embedding is faithful to the Python source:
* JSON values are the inductive `Json`; `json.dumps` is `dumps` (Python's
  default separators are a comma-space and a colon-space).
* The HTTP layer is represented by the outcome each GET attempt would have
  (`AttemptResult`): either an exception caught by the `except aiohttp.ClientError`
  clause (network or timeout error) or a response with a status code and a
  parsed JSON body.  Python's `response.json()` parses the body "null" to the
  Python value `None`; `pyValue` models that.
* Side effects that the claims talk about (issuing a GET, sleeping between
  retries, scheduling the delayed online recheck with `call_later`, cancelling
  it) are collected in a `List Effect` returned next to the new sensor state.
* A method that can raise an uncaught exception returns `Option`
  (`CustomScreenSensor.async_update` raises a `KeyError`/`TypeError` when
  `ALL_SCREEN_DATA["offline"]` is not available).
-/

/-- A JSON value, as produced by Python's `json` module for this component
(numbers are the integer pixel values the device returns). -/
inductive Json where
  | null : Json
  | bool (b : Bool) : Json
  | num (n : Int) : Json
  | str (s : String) : Json
  | arr (xs : List Json) : Json
  | obj (kvs : List (String × Json)) : Json

/-- `json.dumps` with Python's default separators (", " and ": "). -/
def dumps : Json → String
  | Json.null => "null"
  | Json.bool b => if b then "true" else "false"
  | Json.num n => toString n
  | Json.str s => "\x22" ++ s ++ "\x22"
  | Json.arr xs =>
      "[" ++ String.intercalate ", " (xs.attach.map (fun x => dumps x.1)) ++ "]"
  | Json.obj kvs =>
      "\x7b" ++
        String.intercalate ", "
          (kvs.attach.map (fun x => "\x22" ++ x.1.1 ++ "\x22: " ++ dumps x.1.2)) ++
      "\x7d"
  decreasing_by
    · simp only [Json.arr.sizeOf_spec]
      have h := List.sizeOf_lt_of_mem x.2
      omega
    · obtain ⟨⟨k, v⟩, hmem⟩ := x
      have h := List.sizeOf_lt_of_mem hmem
      simp only [Json.obj.sizeOf_spec, Prod.mk.sizeOf_spec] at h ⊢
      omega

/-- Python `d[k]` on a parsed JSON value with a string key: a lookup that
fails (raising `KeyError` or `TypeError`) unless the value is an object
containing the key. -/
def dictGet (j : Json) (k : String) : Option Json :=
  match j with
  | Json.obj kvs => lookupKey kvs k
  | _ => none
where
  lookupKey : List (String × Json) → String → Option Json
    | [], _ => none
    | kv :: rest, k => if kv.1 = k then some kv.2 else lookupKey rest k

/-- Observable side effects of the sensor's coroutines. -/
inductive Effect where
  | httpGet : Effect
  | sleep (secs : Nat) : Effect
  | scheduleRecheck : Effect
  | cancelRecheck : Effect
deriving DecidableEq, Repr

/-- Outcome of one GET attempt against the API endpoint: either an exception
caught by the `except aiohttp.ClientError` handler (connection or timeout
error) or a response carrying a status code and parsed JSON body. -/
inductive AttemptResult where
  | clientError : AttemptResult
  | response (status : Nat) (body : Json) : AttemptResult

/-- `await response.json()` hands the body to Python: the body "null" becomes
the Python value `None`, every other value is passed through. -/
def pyValue : Json → Option Json
  | Json.null => none
  | j => some j

/-- The `for retry in range(retries)` loop of `async_http_get_with_retries`,
with `remaining = retries - retry` iterations left.  On a response it returns
the parsed body when the status is 200 and `None` otherwise; on a client error
it sleeps `2 ** retry` seconds and retries while `retry + 1 < retries`. -/
def httpGetGo (attempts : Nat → AttemptResult) (retries : Nat) :
    Nat → Nat → Option Json × List Effect
  | _, 0 => (none, [])
  | retry, remaining + 1 =>
      match attempts retry with
      | AttemptResult.response status body =>
          if status = 200 then (pyValue body, [Effect.httpGet])
          else (none, [Effect.httpGet])
      | AttemptResult.clientError =>
          if retry + 1 < retries then
            let r := httpGetGo attempts retries (retry + 1) remaining
            (r.1, Effect.httpGet :: Effect.sleep (2 ^ retry) :: r.2)
          else (none, [Effect.httpGet])

/-- `async_http_get_with_retries(session, url, retries=3, timeout=5)`:
`attempts i` is the outcome the i-th GET would have. -/
def async_http_get_with_retries (attempts : Nat → AttemptResult)
    (retries : Nat := 3) : Option Json × List Effect :=
  httpGetGo attempts retries 0 retries

/-- Condition of the local `screen_data.json` file when the module loads. -/
inductive FileCondition where
  | absent : FileCondition
  | malformed : FileCondition
  | parsed (j : Json) : FileCondition

/-- The default screen data used when the file cannot be loaded:
`{"offline": [16711680] * 256}`. -/
def defaultScreenData : Json :=
  Json.obj [("offline", Json.arr (List.replicate 256 (Json.num 16711680)))]

/-- `load_screen_data()`: returns `json.load(file)` when the file opens and
parses, and the default mapping on `FileNotFoundError` or `JSONDecodeError`. -/
def load_screen_data : FileCondition → Json
  | FileCondition.absent => defaultScreenData
  | FileCondition.malformed => defaultScreenData
  | FileCondition.parsed j => j

/-- The mutable fields of a `CustomScreenSensor` entity.  `_state` is `none`
for Python `None`; `_state_attributes` is the attribute dict (insertion
ordered, string valued in this component); `_offline_delay` is `some ()` when
a `call_later` recheck handle is stored. -/
structure CustomScreenSensor where
  _name : String
  _api_endpoint : String
  _state : Option Int
  _scan_interval : Nat
  _state_attributes : List (String × String)
  _online : Bool
  _max_errors : Nat
  _error_counter : Nat
  _offline_delay : Option Unit
deriving DecidableEq, Repr

namespace CustomScreenSensor

/-- `__init__(self, name, api_endpoint, scan_interval)`. -/
def init (name api_endpoint : String) (scan_interval : Nat) : CustomScreenSensor :=
  { _name := name
    _api_endpoint := api_endpoint
    _state := none
    _scan_interval := scan_interval
    _state_attributes := []
    _online := false
    _max_errors := 3
    _error_counter := 0
    _offline_delay := none }

end CustomScreenSensor

/-- Python dict assignment `attrs[k] = v`: replaces the value of an existing
key in place, otherwise appends the new binding. -/
def setAttr : List (String × String) → String → String → List (String × String)
  | [], k, v => [(k, v)]
  | kv :: rest, k, v =>
      if kv.1 = k then (k, v) :: rest else kv :: setAttr rest k v

/-- Python dict read `attrs.get(k)`. -/
def getAttr : List (String × String) → String → Option String
  | [], _ => none
  | kv :: rest, k => if kv.1 = k then some kv.2 else getAttr rest k

namespace CustomScreenSensor

/-- `_handle_error(self)`: increment the consecutive error counter; when it
reaches `_max_errors`, go offline, zero the state and schedule the delayed
online recheck (storing its handle). -/
def _handle_error (s : CustomScreenSensor) : CustomScreenSensor × List Effect :=
  let ec := s._error_counter + 1
  if s._max_errors ≤ ec then
    ({ s with
        _error_counter := ec
        _online := false
        _state := some 0
        _offline_delay := some () },
     [Effect.scheduleRecheck])
  else
    ({ s with _error_counter := ec }, [])

/-- `async_update_online_status(self, online)`. -/
def async_update_online_status (online : Bool) (s : CustomScreenSensor) :
    CustomScreenSensor × List Effect :=
  if online = false then
    let ec := s._error_counter + 1
    if s._max_errors ≤ ec then
      ({ s with
          _error_counter := ec
          _online := false
          _state := some 0
          _offline_delay := some () },
       [Effect.scheduleRecheck])
    else
      ({ s with _error_counter := ec }, [])
  else
    if s._online = false then
      match s._offline_delay with
      | some _ =>
          ({ s with _online := true, _state := none, _offline_delay := none },
           [Effect.cancelRecheck])
      | none =>
          ({ s with _online := true, _state := none }, [])
    else
      (s, [])

/-- `async_check_online(self)`: one liveness GET (`async_http_check_online`),
whose boolean outcome is `probe`, then `async_update_online_status`. -/
def async_check_online (probe : Bool) (s : CustomScreenSensor) :
    CustomScreenSensor × List Effect :=
  let r := async_update_online_status probe s
  (r.1, Effect.httpGet :: r.2)

/-- `async_update(self)`.  `screenData` is the module-level `ALL_SCREEN_DATA`;
`attempts` gives the outcome of each GET the poll would issue.  Returns `none`
when the offline branch's `ALL_SCREEN_DATA["offline"]` lookup raises. -/
def async_update (screenData : Json) (attempts : Nat → AttemptResult)
    (s : CustomScreenSensor) : Option (CustomScreenSensor × List Effect) :=
  if s._online = false then
    match dictGet screenData "offline" with
    | some frame =>
        some ({ s with
                  _state_attributes :=
                    setAttr s._state_attributes "screen" (dumps frame) },
              [])
    | none => none
  else
    let fetched := async_http_get_with_retries attempts 3
    let stepped :=
      match fetched.1 with
      | some (Json.arr xs) =>
          ({ s with
              _state_attributes :=
                setAttr s._state_attributes "screen" (dumps (Json.arr xs))
              _error_counter := 0
              _state := some 1 },
           ([] : List Effect))
      | some _ => _handle_error s
      | none => _handle_error s
    some ({ stepped.1 with
              _state_attributes := setAttr stepped.1._state_attributes "test" "test" },
          fetched.2 ++ stepped.2)

end CustomScreenSensor

/-- One transition of a sensor: a data poll (`async_update`, with the module's
screen data and some sequence of GET outcomes) that did not raise, an online
status update (`async_update_online_status`, also the tail of
`async_check_online`), or a direct `_handle_error` call. -/
inductive Step : CustomScreenSensor → CustomScreenSensor → Prop where
  | update (screenData : Json) (attempts : Nat → AttemptResult)
      (s s' : CustomScreenSensor) (effs : List Effect) :
      CustomScreenSensor.async_update screenData attempts s = some (s', effs) →
      Step s s'
  | onlineStatus (online : Bool) (s : CustomScreenSensor) :
      Step s (CustomScreenSensor.async_update_online_status online s).1
  | handleError (s : CustomScreenSensor) :
      Step s (CustomScreenSensor._handle_error s).1

/-- Sensor states reachable from construction by the component's transitions. -/
inductive Reachable : CustomScreenSensor → Prop where
  | init (name api_endpoint : String) (scan_interval : Nat) :
      Reachable (CustomScreenSensor.init name api_endpoint scan_interval)
  | step {s s' : CustomScreenSensor} :
      Reachable s → Step s s' → Reachable s'

/-! ### Helper lemmas -/

theorem getAttr_setAttr_self (attrs : List (String × String)) (k v : String) :
    getAttr (setAttr attrs k v) k = some v := by
  induction attrs with
  | nil => simp [setAttr, getAttr]
  | cons kv rest ih =>
      by_cases hk : kv.1 = k
      · simp [setAttr, getAttr, hk]
      · simp [setAttr, getAttr, hk, ih]

theorem getAttr_setAttr_ne (attrs : List (String × String)) (k k' v : String)
    (h : k' ≠ k) : getAttr (setAttr attrs k' v) k = getAttr attrs k := by
  induction attrs with
  | nil => simp [setAttr, getAttr, h]
  | cons kv rest ih =>
      by_cases hk : kv.1 = k'
      · simp [setAttr, getAttr, hk, h]
      · simp only [setAttr, getAttr, if_neg hk]
        by_cases hk2 : kv.1 = k
        · simp [getAttr, hk2]
        · simp [getAttr, hk2, ih]

/-- The failure branch of `async_update_online_status` is textually the body
of `_handle_error`. -/
theorem aus_false_eq_handle_error (s : CustomScreenSensor) :
    CustomScreenSensor.async_update_online_status false s =
      CustomScreenSensor._handle_error s := rfl

theorem handle_error_eq_lt (s : CustomScreenSensor)
    (hlt : s._error_counter + 1 < s._max_errors) :
    CustomScreenSensor._handle_error s =
      ({ s with _error_counter := s._error_counter + 1 }, []) := by
  simp only [CustomScreenSensor._handle_error]
  rw [if_neg (by omega)]

theorem handle_error_eq_ge (s : CustomScreenSensor)
    (hge : s._max_errors ≤ s._error_counter + 1) :
    CustomScreenSensor._handle_error s =
      ({ s with
          _error_counter := s._error_counter + 1
          _online := false
          _state := some 0
          _offline_delay := some () },
       [Effect.scheduleRecheck]) := by
  simp only [CustomScreenSensor._handle_error]
  rw [if_pos hge]

theorem handle_error_counter (s : CustomScreenSensor) :
    (CustomScreenSensor._handle_error s).1._error_counter = s._error_counter + 1 := by
  simp only [CustomScreenSensor._handle_error]
  split <;> rfl

/-- Invariant of reachable sensor states: the error threshold is the
constructor's 3, the exposed state is `None`, 0 or 1, and a stored recheck
handle implies the sensor is offline with a saturated error counter. -/
def SensorInv (s : CustomScreenSensor) : Prop :=
  s._max_errors = 3 ∧
  (s._state = none ∨ s._state = some 0 ∨ s._state = some 1) ∧
  (s._offline_delay ≠ none → s._online = false ∧ 3 ≤ s._error_counter)

theorem sensorInv_init (name api_endpoint : String) (scan_interval : Nat) :
    SensorInv (CustomScreenSensor.init name api_endpoint scan_interval) := by
  refine ⟨rfl, Or.inl rfl, fun hd => absurd rfl hd⟩

theorem sensorInv_handle_error (s : CustomScreenSensor) (h : SensorInv s) :
    SensorInv (CustomScreenSensor._handle_error s).1 := by
  obtain ⟨hmax, hstate, hpend⟩ := h
  by_cases hge : s._max_errors ≤ s._error_counter + 1
  · rw [handle_error_eq_ge s hge]
    refine ⟨hmax, Or.inr (Or.inl rfl), fun _ => ⟨rfl, ?_⟩⟩
    show 3 ≤ s._error_counter + 1
    omega
  · rw [handle_error_eq_lt s (by omega)]
    refine ⟨hmax, hstate, fun hd => ?_⟩
    obtain ⟨ho, hc⟩ := hpend hd
    refine ⟨ho, ?_⟩
    show 3 ≤ s._error_counter + 1
    omega

theorem sensorInv_aus (online : Bool) (s : CustomScreenSensor) (h : SensorInv s) :
    SensorInv (CustomScreenSensor.async_update_online_status online s).1 := by
  obtain ⟨hmax, hstate, hpend⟩ := h
  cases online with
  | false => exact sensorInv_handle_error s ⟨hmax, hstate, hpend⟩
  | true =>
      unfold CustomScreenSensor.async_update_online_status
      rw [if_neg (by simp : ¬(true = false))]
      by_cases hon : s._online = false
      · rw [if_pos hon]
        cases hdel : s._offline_delay with
        | some u =>
            exact ⟨hmax, Or.inl rfl, fun hd => absurd rfl hd⟩
        | none =>
            exact ⟨hmax, Or.inl rfl, fun hd => absurd rfl hd⟩
      · rw [if_neg hon]
        exact ⟨hmax, hstate, hpend⟩

theorem sensorInv_attrs (s : CustomScreenSensor) (a : List (String × String)) (h : SensorInv s) :
    SensorInv { s with _state_attributes := a } := h

theorem sensorInv_update (screenData : Json) (attempts : Nat → AttemptResult)
    (s s' : CustomScreenSensor) (effs : List Effect) (h : SensorInv s)
    (hu : CustomScreenSensor.async_update screenData attempts s = some (s', effs)) :
    SensorInv s' := by
  unfold CustomScreenSensor.async_update at hu
  by_cases hon : s._online = false
  · rw [if_pos hon] at hu
    generalize hkey : dictGet screenData "offline" = dk at hu
    cases dk with
    | some frame =>
        simp only [Option.some.injEq, Prod.mk.injEq] at hu
        obtain ⟨hu1, -⟩ := hu
        subst hu1
        exact sensorInv_attrs s _ h
    | none => exact absurd hu (by simp)
  · rw [if_neg hon] at hu
    generalize hfetch : async_http_get_with_retries attempts 3 = fr at hu
    obtain ⟨d, es⟩ := fr
    cases d with
    | none =>
        simp only [Option.some.injEq, Prod.mk.injEq] at hu
        obtain ⟨hu1, -⟩ := hu
        subst hu1
        exact sensorInv_attrs (CustomScreenSensor._handle_error s).1 _
          (sensorInv_handle_error s h)
    | some data =>
        cases data with
        | arr xs =>
            simp only [Option.some.injEq, Prod.mk.injEq] at hu
            obtain ⟨hu1, -⟩ := hu
            subst hu1
            obtain ⟨hmax, hstate, hpend⟩ := h
            exact ⟨hmax, Or.inr (Or.inr rfl), fun hd => absurd (hpend hd).1 hon⟩
        | null =>
            simp only [Option.some.injEq, Prod.mk.injEq] at hu
            obtain ⟨hu1, -⟩ := hu
            subst hu1
            exact sensorInv_attrs (CustomScreenSensor._handle_error s).1 _
              (sensorInv_handle_error s h)
        | bool b =>
            simp only [Option.some.injEq, Prod.mk.injEq] at hu
            obtain ⟨hu1, -⟩ := hu
            subst hu1
            exact sensorInv_attrs (CustomScreenSensor._handle_error s).1 _
              (sensorInv_handle_error s h)
        | num n =>
            simp only [Option.some.injEq, Prod.mk.injEq] at hu
            obtain ⟨hu1, -⟩ := hu
            subst hu1
            exact sensorInv_attrs (CustomScreenSensor._handle_error s).1 _
              (sensorInv_handle_error s h)
        | str t =>
            simp only [Option.some.injEq, Prod.mk.injEq] at hu
            obtain ⟨hu1, -⟩ := hu
            subst hu1
            exact sensorInv_attrs (CustomScreenSensor._handle_error s).1 _
              (sensorInv_handle_error s h)
        | obj kvs =>
            simp only [Option.some.injEq, Prod.mk.injEq] at hu
            obtain ⟨hu1, -⟩ := hu
            subst hu1
            exact sensorInv_attrs (CustomScreenSensor._handle_error s).1 _
              (sensorInv_handle_error s h)

theorem reachable_inv {s : CustomScreenSensor} (h : Reachable s) : SensorInv s := by
  induction h with
  | init name api_endpoint scan_interval => exact sensorInv_init name api_endpoint scan_interval
  | step hr hstep ih =>
      cases hstep with
      | update screenData attempts s2 s3 effs hu =>
          exact sensorInv_update screenData attempts _ _ effs ih hu
      | onlineStatus online s2 => exact sensorInv_aus online _ ih
      | handleError s2 => exact sensorInv_handle_error _ ih

/-- Three client errors in a row: the retry loop makes all 3 attempts,
sleeping 1 then 2 seconds between them, and returns `None`. -/
theorem httpGet_allErr_eq (attempts : Nat → AttemptResult)
    (hf : ∀ i, attempts i = AttemptResult.clientError) :
    async_http_get_with_retries attempts 3 =
      (none, [Effect.httpGet, Effect.sleep 1, Effect.httpGet, Effect.sleep 2,
              Effect.httpGet]) := by
  simp [async_http_get_with_retries, httpGetGo, hf 0, hf 1, hf 2]

/-- A response on the first attempt ends the retry loop at once: the parsed
body when the status is 200, `None` otherwise. -/
theorem httpGet_first_response (attempts : Nat → AttemptResult) (st : Nat) (b : Json)
    (h0 : attempts 0 = AttemptResult.response st b) :
    async_http_get_with_retries attempts 3 =
      (if st = 200 then pyValue b else none, [Effect.httpGet]) := by
  simp only [async_http_get_with_retries, httpGetGo, h0]
  split <;> rfl

theorem pyValue_eq_some (b j : Json) (h : pyValue b = some j) : b = j := by
  cases b with
  | null => exact Option.noConfusion h
  | bool v => exact Option.some.inj h
  | num v => exact Option.some.inj h
  | str v => exact Option.some.inj h
  | arr v => exact Option.some.inj h
  | obj v => exact Option.some.inj h

/-- The successful data-poll path of `async_update` in closed form. -/
theorem async_update_success_eq (screenData : Json) (attempts : Nat → AttemptResult)
    (s : CustomScreenSensor) (xs : List Json) (effs : List Effect)
    (hon : s._online = true)
    (hfetch : async_http_get_with_retries attempts 3 = (some (Json.arr xs), effs)) :
    CustomScreenSensor.async_update screenData attempts s =
      some ({ s with
                _state_attributes :=
                  setAttr (setAttr s._state_attributes "screen" (dumps (Json.arr xs)))
                    "test" "test"
                _error_counter := 0
                _state := some 1 }, effs) := by
  unfold CustomScreenSensor.async_update
  rw [if_neg (by simp [hon]), hfetch]
  simp

/-- The failed data-poll path of `async_update` in closed form: whenever the
fetch does not produce a list, the result is `_handle_error` followed by the
"test" attribute write. -/
theorem async_update_error_eq (screenData : Json) (attempts : Nat → AttemptResult)
    (s : CustomScreenSensor) (hon : s._online = true)
    (hfail : ∀ xs, (async_http_get_with_retries attempts 3).1 ≠ some (Json.arr xs)) :
    CustomScreenSensor.async_update screenData attempts s =
      some ({ (CustomScreenSensor._handle_error s).1 with
                _state_attributes :=
                  setAttr (CustomScreenSensor._handle_error s).1._state_attributes
                    "test" "test" },
            (async_http_get_with_retries attempts 3).2 ++
              (CustomScreenSensor._handle_error s).2) := by
  unfold CustomScreenSensor.async_update
  rw [if_neg (by simp [hon])]
  generalize hfetch : async_http_get_with_retries attempts 3 = fr
  rw [hfetch] at hfail
  obtain ⟨d, es⟩ := fr
  cases d with
  | none => rfl
  | some data =>
      cases data with
      | arr xs => exact absurd rfl (hfail xs)
      | null => rfl
      | bool v => rfl
      | num v => rfl
      | str v => rfl
      | obj v => rfl

/-! ### Claims -/

/-- C1: for every reachable sensor state, a failure-handling step
(`_handle_error`, or `async_update_online_status` with a failed probe)
increments the consecutive error counter by one; when the incremented counter
is still below the threshold 3, `_online` and `_state` are unchanged, and when
it has reached 3, `_online` becomes false and `_state` becomes 0. -/
theorem failure_handling_threshold (s : CustomScreenSensor) (h : Reachable s) :
    (CustomScreenSensor._handle_error s).1._error_counter = s._error_counter + 1 ∧
    (CustomScreenSensor.async_update_online_status false s).1._error_counter =
      s._error_counter + 1 ∧
    (s._error_counter + 1 < 3 →
       (CustomScreenSensor._handle_error s).1._online = s._online ∧
       (CustomScreenSensor._handle_error s).1._state = s._state ∧
       (CustomScreenSensor.async_update_online_status false s).1._online = s._online ∧
       (CustomScreenSensor.async_update_online_status false s).1._state = s._state) ∧
    (3 ≤ s._error_counter + 1 →
       (CustomScreenSensor._handle_error s).1._online = false ∧
       (CustomScreenSensor._handle_error s).1._state = some 0 ∧
       (CustomScreenSensor.async_update_online_status false s).1._online = false ∧
       (CustomScreenSensor.async_update_online_status false s).1._state = some 0) := by
  have hmax := (reachable_inv h).1
  rw [aus_false_eq_handle_error]
  by_cases hge : 3 ≤ s._error_counter + 1
  · rw [handle_error_eq_ge s (by omega)]
    exact ⟨rfl, rfl, fun hlt => absurd hge (by omega),
           fun _ => ⟨rfl, rfl, rfl, rfl⟩⟩
  · rw [handle_error_eq_lt s (by omega)]
    exact ⟨rfl, rfl, fun _ => ⟨rfl, rfl, rfl, rfl⟩, fun hge2 => absurd hge2 hge⟩

/-- Witness for C1: at the freshly constructed sensor (counter 0), a single
failure leaves `_online` unchanged. -/
theorem failure_handling_threshold_w :
    (CustomScreenSensor._handle_error
        (CustomScreenSensor.init "awtrix" "http://host/api" 1)).1._online =
      (CustomScreenSensor.init "awtrix" "http://host/api" 1)._online :=
  ((failure_handling_threshold _
      (Reachable.init "awtrix" "http://host/api" 1)).2.2.1 (by decide)).1

/-- C2 counterexample: after one failure the counter is 1, and a successful
liveness probe (`async_update_online_status` with `online = true`) leaves it
at 1 instead of resetting it to 0. -/
theorem success_reset_cex :
    (CustomScreenSensor.async_update_online_status true
      (CustomScreenSensor.async_update_online_status false
        (CustomScreenSensor.init "awtrix" "http://host/api" 1)).1).1._error_counter
      = 1 ∧ (1 : Nat) ≠ 0 :=
  ⟨rfl, by decide⟩

/-- C2 (amended): a successful data poll (HTTP 200 list body) resets the error
counter to 0, but a successful liveness probe leaves the counter unchanged. -/
theorem success_resets_counter (screenData : Json) (attempts : Nat → AttemptResult)
    (s : CustomScreenSensor) (xs : List Json) (effs : List Effect)
    (hon : s._online = true)
    (hfetch : async_http_get_with_retries attempts 3 = (some (Json.arr xs), effs)) :
    CustomScreenSensor.async_update screenData attempts s =
      some ({ s with
                _state_attributes :=
                  setAttr (setAttr s._state_attributes "screen" (dumps (Json.arr xs)))
                    "test" "test"
                _error_counter := 0
                _state := some 1 }, effs) ∧
    ∀ t : CustomScreenSensor,
      (CustomScreenSensor.async_update_online_status true t).1._error_counter =
        t._error_counter := by
  refine ⟨async_update_success_eq screenData attempts s xs effs hon hfetch,
          fun t => ?_⟩
  unfold CustomScreenSensor.async_update_online_status
  rw [if_neg (by simp : ¬(true = false))]
  by_cases hon2 : t._online = false
  · rw [if_pos hon2]
    cases hdel : t._offline_delay with
    | some u => rfl
    | none => rfl
  · rw [if_neg hon2]

/-- Witness for C2 (amended): the probe-success arm at the fresh sensor. -/
theorem success_resets_counter_w :
    (CustomScreenSensor.async_update_online_status true
        (CustomScreenSensor.init "awtrix" "http://host/api" 1)).1._error_counter =
      (CustomScreenSensor.init "awtrix" "http://host/api" 1)._error_counter :=
  (success_resets_counter defaultScreenData
      (fun _ => AttemptResult.response 200 (Json.arr []))
      { CustomScreenSensor.init "awtrix" "http://host/api" 1 with _online := true }
      [] [Effect.httpGet] rfl rfl).2
    (CustomScreenSensor.init "awtrix" "http://host/api" 1)

/-- C3: while the sensor is offline, `async_update` issues no HTTP request
(the effect list is empty), writes the JSON serialization of the fallback
frame into the "screen" attribute, and that is the only outcome. -/
theorem offline_update_fallback (screenData frame : Json)
    (attempts : Nat → AttemptResult) (s : CustomScreenSensor)
    (hoff : s._online = false)
    (hkey : dictGet screenData "offline" = some frame) :
    CustomScreenSensor.async_update screenData attempts s =
      some ({ s with _state_attributes :=
                setAttr s._state_attributes "screen" (dumps frame) }, []) ∧
    getAttr (setAttr s._state_attributes "screen" (dumps frame)) "screen" =
      some (dumps frame) := by
  refine ⟨?_, getAttr_setAttr_self _ _ _⟩
  unfold CustomScreenSensor.async_update
  rw [if_pos hoff, hkey]

/-- Witness for C3 at the fresh (offline) sensor with the default fallback. -/
theorem offline_update_fallback_w :
    CustomScreenSensor.async_update defaultScreenData
      (fun _ => AttemptResult.clientError)
      (CustomScreenSensor.init "awtrix" "http://host/api" 1) =
      some ({ CustomScreenSensor.init "awtrix" "http://host/api" 1 with
                _state_attributes :=
                  setAttr (CustomScreenSensor.init "awtrix" "http://host/api"
                      1)._state_attributes
                    "screen"
                    (dumps (Json.arr (List.replicate 256 (Json.num 16711680)))) },
            []) :=
  (offline_update_fallback defaultScreenData _ _ _ rfl rfl).1

/-- C4: on a successful data poll (HTTP 200 response whose body is a JSON
list), `async_update` stores the serialized list in the "screen" attribute,
resets the error counter to 0 and sets the state to 1. -/
theorem online_update_success (screenData : Json) (attempts : Nat → AttemptResult)
    (s : CustomScreenSensor) (xs : List Json) (effs : List Effect)
    (hon : s._online = true)
    (hfetch : async_http_get_with_retries attempts 3 = (some (Json.arr xs), effs)) :
    CustomScreenSensor.async_update screenData attempts s =
      some ({ s with
                _state_attributes :=
                  setAttr (setAttr s._state_attributes "screen" (dumps (Json.arr xs)))
                    "test" "test"
                _error_counter := 0
                _state := some 1 }, effs) ∧
    getAttr (setAttr (setAttr s._state_attributes "screen" (dumps (Json.arr xs)))
        "test" "test") "screen" = some (dumps (Json.arr xs)) := by
  refine ⟨async_update_success_eq screenData attempts s xs effs hon hfetch, ?_⟩
  rw [getAttr_setAttr_ne _ _ _ _ (by decide), getAttr_setAttr_self]

/-- Witness for C4: a 200 response carrying the list [7]. -/
theorem online_update_success_w :
    CustomScreenSensor.async_update defaultScreenData
      (fun _ => AttemptResult.response 200 (Json.arr [Json.num 7]))
      { CustomScreenSensor.init "awtrix" "http://host/api" 1 with _online := true } =
      some ({ { CustomScreenSensor.init "awtrix" "http://host/api" 1 with
                  _online := true } with
                _state_attributes :=
                  setAttr (setAttr ({ CustomScreenSensor.init "awtrix"
                        "http://host/api" 1 with
                        _online := true })._state_attributes "screen"
                      (dumps (Json.arr [Json.num 7])))
                    "test" "test"
                _error_counter := 0
                _state := some 1 }, [Effect.httpGet]) :=
  (online_update_success defaultScreenData
    (fun _ => AttemptResult.response 200 (Json.arr [Json.num 7]))
    { CustomScreenSensor.init "awtrix" "http://host/api" 1 with _online := true }
    [Json.num 7] [Effect.httpGet] rfl rfl).1

/-- C5: a scheduled offline recheck issues exactly one liveness GET; if the
probe succeeds while the recheck handle is pending, the sensor goes online,
the state is cleared to force a fresh poll, and the stored handle is
cancelled and cleared; if the probe fails, a new recheck is scheduled. -/
theorem recheck_probe (s : CustomScreenSensor) (h : Reachable s)
    (hpend : s._offline_delay = some ()) (probe : Bool) :
    (CustomScreenSensor.async_check_online probe s).2.count Effect.httpGet = 1 ∧
    (probe = true →
       (CustomScreenSensor.async_check_online probe s).1._online = true ∧
       (CustomScreenSensor.async_check_online probe s).1._state = none ∧
       (CustomScreenSensor.async_check_online probe s).1._offline_delay = none ∧
       (CustomScreenSensor.async_check_online probe s).2 =
         [Effect.httpGet, Effect.cancelRecheck]) ∧
    (probe = false →
       (CustomScreenSensor.async_check_online probe s).1._offline_delay = some () ∧
       (CustomScreenSensor.async_check_online probe s).2 =
         [Effect.httpGet, Effect.scheduleRecheck]) := by
  obtain ⟨hmax, hstate, hpend2⟩ := reachable_inv h
  obtain ⟨hoff, hcnt⟩ := hpend2 (by rw [hpend]; simp)
  cases probe with
  | true =>
      unfold CustomScreenSensor.async_check_online
        CustomScreenSensor.async_update_online_status
      rw [if_neg (by simp : ¬(true = false)), if_pos hoff, hpend]
      exact ⟨rfl, fun _ => ⟨rfl, rfl, rfl, rfl⟩, fun hf => nomatch hf⟩
  | false =>
      unfold CustomScreenSensor.async_check_online
      rw [aus_false_eq_handle_error, handle_error_eq_ge s (by omega)]
      exact ⟨rfl, fun ht => absurd ht (by decide), fun _ => ⟨rfl, rfl⟩⟩

/-- Witness for C5: after three straight failures the handle is pending, and a
successful probe brings the sensor back online. -/
theorem recheck_probe_w :
    (CustomScreenSensor.async_check_online true
      (CustomScreenSensor.async_update_online_status false
        (CustomScreenSensor.async_update_online_status false
          (CustomScreenSensor.async_update_online_status false
            (CustomScreenSensor.init "awtrix" "http://host/api" 1)).1).1).1).1._online
      = true :=
  ((recheck_probe _
      (Reachable.step
        (Reachable.step
          (Reachable.step (Reachable.init "awtrix" "http://host/api" 1)
            (Step.onlineStatus false _))
          (Step.onlineStatus false _))
        (Step.onlineStatus false _))
      rfl true).2.1 rfl).1

/-- C6: every error in the taxonomy — client (network/timeout) errors on all
attempts, a non-200 response, or a 200 response whose body is not a list — is
non-fatal to `async_update` (the call returns `some`, routing through
`_handle_error`), and the consecutive error counter grows by exactly one. -/
theorem errors_nonfatal_increment (screenData : Json)
    (attempts : Nat → AttemptResult) (s : CustomScreenSensor)
    (hon : s._online = true)
    (hfail : (∀ i, attempts i = AttemptResult.clientError) ∨
             (∃ st b, st ≠ 200 ∧ attempts 0 = AttemptResult.response st b) ∨
             (∃ b, attempts 0 = AttemptResult.response 200 b ∧
                ∀ xs, b ≠ Json.arr xs)) :
    CustomScreenSensor.async_update screenData attempts s =
      some ({ (CustomScreenSensor._handle_error s).1 with
                _state_attributes :=
                  setAttr (CustomScreenSensor._handle_error s).1._state_attributes
                    "test" "test" },
            (async_http_get_with_retries attempts 3).2 ++
              (CustomScreenSensor._handle_error s).2) ∧
    (CustomScreenSensor._handle_error s).1._error_counter = s._error_counter + 1 := by
  have hne : ∀ xs, (async_http_get_with_retries attempts 3).1 ≠ some (Json.arr xs) := by
    rcases hfail with h1 | ⟨st, b, hst, h0⟩ | ⟨b, h0, hnarr⟩
    · rw [httpGet_allErr_eq attempts h1]
      intro xs
      simp
    · rw [httpGet_first_response attempts st b h0]
      intro xs
      simp [if_neg hst]
    · rw [httpGet_first_response attempts 200 b h0]
      intro xs hcontra
      simp only [if_pos rfl] at hcontra
      exact hnarr xs (pyValue_eq_some b (Json.arr xs) hcontra)
  exact ⟨async_update_error_eq screenData attempts s hon hne, handle_error_counter s⟩

/-- Witness for C6: repeated client errors against an online fresh sensor. -/
theorem errors_nonfatal_increment_w :
    (CustomScreenSensor._handle_error
        { CustomScreenSensor.init "awtrix" "http://host/api" 1 with
            _online := true }).1._error_counter =
      { CustomScreenSensor.init "awtrix" "http://host/api" 1 with
          _online := true }._error_counter + 1 :=
  (errors_nonfatal_increment defaultScreenData (fun _ => AttemptResult.clientError)
    { CustomScreenSensor.init "awtrix" "http://host/api" 1 with _online := true }
    rfl (Or.inl fun _ => rfl)).2

/-- C7 counterexample: a first-attempt non-200 response makes
`async_http_get_with_retries` return `None` after a single GET, without using
the remaining attempts. -/
theorem retries_cex :
    (async_http_get_with_retries (fun _ => AttemptResult.response 500 Json.null)
        3).1 = none ∧
    (async_http_get_with_retries (fun _ => AttemptResult.response 500 Json.null)
        3).2.count Effect.httpGet = 1 :=
  ⟨rfl, rfl⟩

/-- C7 (amended): retries apply only to client (connection/timeout) errors:
when every attempt raises one, the GET is attempted 3 times with the
inter-attempt delay doubling (1s then 2s) and `None` is returned after the
attempts are exhausted; a non-200 response returns `None` immediately after a
single attempt. -/
theorem retries_backoff (attempts : Nat → AttemptResult) (st : Nat) (b : Json)
    (hfail : ∀ i, attempts i = AttemptResult.clientError) (hst : st ≠ 200) :
    async_http_get_with_retries attempts 3 =
      (none, [Effect.httpGet, Effect.sleep 1, Effect.httpGet, Effect.sleep 2,
              Effect.httpGet]) ∧
    async_http_get_with_retries (fun _ => AttemptResult.response st b) 3 =
      (none, [Effect.httpGet]) := by
  refine ⟨httpGet_allErr_eq attempts hfail, ?_⟩
  rw [httpGet_first_response (fun _ => AttemptResult.response st b) st b rfl,
      if_neg hst]

/-- Witness for C7 (amended): three client errors, and a 500 response. -/
theorem retries_backoff_w :
    async_http_get_with_retries (fun _ => AttemptResult.clientError) 3 =
      (none, [Effect.httpGet, Effect.sleep 1, Effect.httpGet, Effect.sleep 2,
              Effect.httpGet]) :=
  (retries_backoff (fun _ => AttemptResult.clientError) 500 Json.null
    (fun _ => rfl) (by decide)).1

/-- C8 counterexample: when `screen_data.json` parses to a mapping without the
"offline" key (here the empty object), the offline branch of `async_update`
raises (`KeyError`) instead of producing a fallback payload. -/
theorem screen_data_cex :
    CustomScreenSensor.async_update
      (load_screen_data (FileCondition.parsed (Json.obj [])))
      (fun _ => AttemptResult.clientError)
      (CustomScreenSensor.init "awtrix" "http://host/api" 1) = none := rfl

/-- C8 (amended): a missing or malformed `screen_data.json` makes
`load_screen_data` return the default mapping, whose "offline" key holds 256
copies of the color value 16711680; the offline branch of `async_update`
succeeds exactly when the loaded data has an "offline" entry, serializing it
into the "screen" attribute (parseable content without that key raises). -/
theorem screen_data_fallback (cond : FileCondition)
    (attempts : Nat → AttemptResult) (s : CustomScreenSensor)
    (hoff : s._online = false) :
    ((cond = FileCondition.absent ∨ cond = FileCondition.malformed) →
       load_screen_data cond = defaultScreenData ∧
       dictGet defaultScreenData "offline" =
         some (Json.arr (List.replicate 256 (Json.num 16711680)))) ∧
    (∀ frame, dictGet (load_screen_data cond) "offline" = some frame →
       CustomScreenSensor.async_update (load_screen_data cond) attempts s =
         some ({ s with _state_attributes :=
                   setAttr s._state_attributes "screen" (dumps frame) }, [])) := by
  constructor
  · rintro (rfl | rfl)
    · exact ⟨rfl, rfl⟩
    · exact ⟨rfl, rfl⟩
  · intro frame hkey
    unfold CustomScreenSensor.async_update
    rw [if_pos hoff, hkey]

/-- Witness for C8 (amended): the absent-file default at the fresh sensor. -/
theorem screen_data_fallback_w :
    load_screen_data FileCondition.absent = defaultScreenData ∧
    dictGet defaultScreenData "offline" =
      some (Json.arr (List.replicate 256 (Json.num 16711680))) :=
  (screen_data_fallback FileCondition.absent (fun _ => AttemptResult.clientError)
    (CustomScreenSensor.init "awtrix" "http://host/api" 1) rfl).1 (Or.inl rfl)

/-- C9 counterexample: the freshly constructed sensor is reachable and its
exposed state is `None`, neither 0 nor 1. -/
theorem state_values_cex :
    Reachable (CustomScreenSensor.init "awtrix" "http://host/api" 1) ∧
    ¬((CustomScreenSensor.init "awtrix" "http://host/api" 1)._state = some 0 ∨
      (CustomScreenSensor.init "awtrix" "http://host/api" 1)._state = some 1) :=
  ⟨Reachable.init "awtrix" "http://host/api" 1, by decide⟩

/-- C9 (amended): for every reachable sensor state the exposed state is
`None` (unset, as at construction and right after a transition to online),
0, or 1. -/
theorem state_values (s : CustomScreenSensor) (h : Reachable s) :
    s._state = none ∨ s._state = some 0 ∨ s._state = some 1 :=
  (reachable_inv h).2.1

/-- Witness for C9 (amended) at the freshly constructed sensor. -/
theorem state_values_w :
    (CustomScreenSensor.init "awtrix" "http://host/api" 1)._state = none ∨
    (CustomScreenSensor.init "awtrix" "http://host/api" 1)._state = some 0 ∨
    (CustomScreenSensor.init "awtrix" "http://host/api" 1)._state = some 1 :=
  state_values _ (Reachable.init "awtrix" "http://host/api" 1)

/-- C10: every non-raising `async_update` call on an online sensor ends by
setting the extra state attribute "test" to "test", while a call on an
offline sensor returns early and leaves the "test" binding untouched. -/
theorem update_sets_test_attr (screenData : Json)
    (attempts : Nat → AttemptResult) (s s' : CustomScreenSensor)
    (effs : List Effect)
    (hu : CustomScreenSensor.async_update screenData attempts s = some (s', effs)) :
    (s._online = true → getAttr s'._state_attributes "test" = some "test") ∧
    (s._online = false →
       getAttr s'._state_attributes "test" = getAttr s._state_attributes "test") := by
  unfold CustomScreenSensor.async_update at hu
  by_cases hon : s._online = false
  · rw [if_pos hon] at hu
    refine ⟨fun ht => absurd ht (by simp [hon]), fun _ => ?_⟩
    generalize hkey : dictGet screenData "offline" = dk at hu
    cases dk with
    | some frame =>
        simp only [Option.some.injEq, Prod.mk.injEq] at hu
        obtain ⟨hu1, -⟩ := hu
        subst hu1
        show getAttr (setAttr s._state_attributes "screen" (dumps frame)) "test" = _
        rw [getAttr_setAttr_ne _ _ _ _ (by decide)]
    | none => exact absurd hu (by simp)
  · rw [if_neg hon] at hu
    refine ⟨fun _ => ?_, fun hf => absurd hf hon⟩
    simp only [Option.some.injEq, Prod.mk.injEq] at hu
    obtain ⟨hu1, -⟩ := hu
    subst hu1
    show getAttr (setAttr _ "test" "test") "test" = some "test"
    exact getAttr_setAttr_self _ _ _

/-- Witness for C10: an offline update leaves the "test" binding untouched. -/
theorem update_sets_test_attr_w :
    getAttr ({ CustomScreenSensor.init "awtrix" "http://host/api" 1 with
        _state_attributes :=
          setAttr (CustomScreenSensor.init "awtrix" "http://host/api"
              1)._state_attributes
            "screen"
            (dumps (Json.arr (List.replicate 256
              (Json.num 16711680)))) })._state_attributes "test" =
      getAttr (CustomScreenSensor.init "awtrix" "http://host/api"
          1)._state_attributes "test" :=
  (update_sets_test_attr defaultScreenData (fun _ => AttemptResult.clientError)
    (CustomScreenSensor.init "awtrix" "http://host/api" 1) _ [] rfl).2 rfl
